import Mathlib

/-!
Verification development for the modbusBR-Python driver
(`modbusTCPBR.py`, `modbusTCPBRBCinfo.py`, `modbusTCPBRMDinfo.py`).

The Python classes are shallowly embedded: register transport calls are
parameters (`Option`-valued register maps, or explicit response values),
exceptions (`OnException(id, msg)`) become `Except Nat` with the numeric
id, and the background `RefreshTimer` thread becomes a small labelled
transition system.  All machine words are modelled as `Nat` (Python
integers are unbounded; the driver never wraps them).
-/

namespace ModbusBR

/-! Exception-code constants of `MasterBRBC` (modbusTCPBR.py, lines 66-81). -/

def excWatchdog : Nat := 1

def excTimeout : Nat := 2

def excConnection : Nat := 3

def excDevice : Nat := 4

def excBUSY : Nat := 6

def excNoModule : Nat := 10

def excNoDigInData : Nat := 11

def excNoDigOutData : Nat := 12

def excNoAnaInData : Nat := 13

def excNoAnaOutData : Nat := 14

def excWrongRegData : Nat := 15

def excDataSize : Nat := 16

def excDataEmptyAnswer : Nat := 17

def excDataRange : Nat := 20

def excWrongEthernetFormat : Nat := 30

def excUnhandled : Nat := 40

/-- `MasterBRBC._SyncReadWord` as used during discovery (the session is
connected there).  The register transport is a map `Nat → Option Nat`:
`some v` is a successful single-register read, `none` is a transport
fault (`ModbusIOException`), which the source turns into
`OnException(excDevice, ...)`. -/
def syncReadWord (regs : Nat → Option Nat) (adr : Nat) : Except Nat Nat :=
  match regs adr with
  | some v => Except.ok v
  | none => Except.error excDevice

/-- The per-module data that `MasterBRMDinfo.__init__` reads once and
stores (`modbusTCPBRMDinfo.py`, lines 37-46).  A `0xFFFF` index means the
I/O kind is absent. -/
structure MasterBRMDinfo where
  id : Nat
  analog_in_index : Nat
  analog_out_index : Nat
  digital_in_index : Nat
  digital_out_index : Nat
  deriving DecidableEq, Repr, Inhabited

/-- `MasterBRMDinfo.__init__` for slot `mod_nr`: reads the hardware id
register and the four I/O index registers in source order
(0xA001, 0xA004, 0xA005, 0xA006, 0xA007, each plus `mod_nr * 16`).
Returns the descriptor and the list of register addresses whose read was
attempted; a transport fault aborts at the faulting read (the exception
propagates out of the constructor).  The hardware-name lookup reads a
local text file, not a register, and is outside the register model. -/
def mkMDinfo (regs : Nat → Option Nat) (mod_nr : Nat) :
    Except Nat MasterBRMDinfo × List Nat :=
  match regs (0xA001 + mod_nr * 16) with
  | none => (Except.error excDevice, [0xA001 + mod_nr * 16])
  | some i =>
    match regs (0xA004 + mod_nr * 16) with
    | none => (Except.error excDevice, [0xA001 + mod_nr * 16, 0xA004 + mod_nr * 16])
    | some ai =>
      match regs (0xA005 + mod_nr * 16) with
      | none => (Except.error excDevice,
          [0xA001 + mod_nr * 16, 0xA004 + mod_nr * 16, 0xA005 + mod_nr * 16])
      | some ao =>
        match regs (0xA006 + mod_nr * 16) with
        | none => (Except.error excDevice,
            [0xA001 + mod_nr * 16, 0xA004 + mod_nr * 16, 0xA005 + mod_nr * 16,
             0xA006 + mod_nr * 16])
        | some di =>
          match regs (0xA007 + mod_nr * 16) with
          | none => (Except.error excDevice,
              [0xA001 + mod_nr * 16, 0xA004 + mod_nr * 16, 0xA005 + mod_nr * 16,
               0xA006 + mod_nr * 16, 0xA007 + mod_nr * 16])
          | some dout =>
            (Except.ok ⟨i, ai, ao, di, dout⟩,
             [0xA001 + mod_nr * 16, 0xA004 + mod_nr * 16, 0xA005 + mod_nr * 16,
              0xA006 + mod_nr * 16, 0xA007 + mod_nr * 16])

/-- The `while True` loop of `MasterBRBC.MasterMDinfo` (modbusTCPBR.py,
lines 236-250) walking slots upward from `k`.  Per iteration it runs the
`MasterBRMDinfo` constructor, then reads the slot status register
`0xA000 + k * 16` (the `MDinfo_tmp.status` property); a nonzero status
appends the descriptor and continues, a zero status breaks the loop.
Any exception reaches the source's `except Exception` handler, which
re-raises `OnException(excUnhandled, ...)`; the modules appended so far
stay appended (`self.MDinfo.append` mutates the session list in place).
`fuel` is only a termination device for the unbounded source loop; fuel
exhaustion yields the artificial error id 0 and is unreachable in every
theorem below.  Result: (loop outcome, modules appended from slot `k`
on, attempted register reads in order). -/
def masterMDinfoGo (regs : Nat → Option Nat) :
    Nat → Nat → Except Nat Unit × (List MasterBRMDinfo × List Nat)
  | _, 0 => (Except.error 0, ([], []))
  | k, fuel+1 =>
    match mkMDinfo regs k with
    | (Except.error _, log) => (Except.error excUnhandled, ([], log))
    | (Except.ok md, log1) =>
      match syncReadWord regs (0xA000 + k * 16) with
      | Except.error _ =>
          (Except.error excUnhandled, ([], log1 ++ [0xA000 + k * 16]))
      | Except.ok st =>
        if st ≠ 0 then
          match masterMDinfoGo regs (k+1) fuel with
          | (r, (mds, log2)) => (r, (md :: mds, log1 ++ [0xA000 + k * 16] ++ log2))
        else (Except.ok (), ([], log1 ++ [0xA000 + k * 16]))

/-- `MasterBRBC.MasterMDinfo`: module discovery starting at slot 0 on an
initially empty list.  The second component is the session's `MDinfo`
list after the call, the third the attempted register reads. -/
def MasterMDinfo (regs : Nat → Option Nat) (fuel : Nat) :
    Except Nat Unit × (List MasterBRMDinfo × List Nat) :=
  masterMDinfoGo regs 0 fuel

/-- The register addresses discovery reads for slot `k`, in source
order: hardware id, the four I/O indices, then the status register. -/
def slotReadAddrs (k : Nat) : List Nat :=
  [0xA001 + k * 16, 0xA004 + k * 16, 0xA005 + k * 16, 0xA006 + k * 16,
   0xA007 + k * 16, 0xA000 + k * 16]

/-- The module descriptor discovery builds for slot `k` from a
fault-free register map `f`. -/
def mdOfRegs (f : Nat → Nat) (k : Nat) : MasterBRMDinfo :=
  ⟨f (0xA001 + k * 16), f (0xA004 + k * 16), f (0xA005 + k * 16),
   f (0xA006 + k * 16), f (0xA007 + k * 16)⟩

/-- Descriptors of `m` consecutive slots starting at slot `k`, one per
slot in increasing slot order. -/
def slotMods (f : Nat → Nat) : Nat → Nat → List MasterBRMDinfo
  | _, 0 => []
  | k, m+1 => mdOfRegs f k :: slotMods f (k+1) m

/-- Register reads of `m` consecutive slots starting at slot `k`. -/
def slotLogs : Nat → Nat → List Nat
  | _, 0 => []
  | k, m+1 => slotReadAddrs k ++ slotLogs (k+1) m

/-! Session state and the foreground I/O operations (modbusTCPBR.py). -/

/-- The `MasterBRBC` attributes the foreground read/write operations
consult: the `_connected` flag, the discovered `MDinfo` list and the
four process-image buffers (only their lengths are ever used by the
operations, through `len(...)`). -/
structure MasterBRBC where
  connected : Bool
  MDinfo : List MasterBRMDinfo
  dig_in_buffer : List Bool
  dig_out_buffer : List Bool
  ana_in_buffer : List Int
  ana_out_buffer : List Int
  deriving Repr

/-- `MasterBRBC._ValidateData` (lines 452-472): raises `excConnection`
when not connected, `excNoModule` when `module_nr > len(MDinfo) - 1`
(a Python `int` comparison, hence the `Int` cast: with an empty list the
right side is `-1`), `excDataSize` when `size == 0`; otherwise returns
`True`.  `size` is a Python `int` and may be negative: the source
checks only `size == 0`, so a negative size passes validation. -/
def ValidateData (m : MasterBRBC) (module_nr : Nat) (size : Int) : Except Nat Bool :=
  if m.connected = false then Except.error excConnection
  else if (m.MDinfo.length : Int) - 1 < (module_nr : Int) then Except.error excNoModule
  else if size = 0 then Except.error excDataSize
  else Except.ok true

/-- Outcome of one pymodbus read call: a successful response carrying
data, a response with `isError()` true, a `ModbusIOException`, or any
other exception. -/
inductive ReadResp (α : Type) where
  | ok (data : List α)
  | isErr
  | ioFault
  | exnOther
  deriving DecidableEq, Repr

/-- Outcome of one pymodbus write call.  The source never checks
`isError()` on write responses in the digital/analog output paths, so
only exceptions are distinguished. -/
inductive WriteResp where
  | ok
  | ioFault
  | exnOther
  deriving DecidableEq, Repr

/-- Python list slicing `bits[:size]` with a Python `int` stop: a
nonnegative stop clamps at the length, a negative stop counts from the
end (`max(0, len + size)` elements). -/
def pySlice (bits : List Bool) (size : Int) : List Bool :=
  if size < 0 then bits.take (bits.length - (-size).toNat) else bits.take size.toNat

/-- `MasterBRBC.ReadDigitalInputs` (lines 252-304).  `resp` is the
response the transport would give to the one `read_discrete_inputs`
call; the second component counts transport calls issued.  `size` is a
Python `int` and may be negative.  Note that in the source the
`OnException(excDataEmptyAnswer, ...)` raised on an error response is
itself caught by the surrounding `except Exception` handler and
re-raised as `excUnhandled`. -/
def ReadDigitalInputs (m : MasterBRBC) (resp : ReadResp Bool)
    (module_nr : Nat) (size : Int) (offset : Nat) : Except Nat (List Bool) × Nat :=
  match ValidateData m module_nr size with
  | Except.error e => (Except.error e, 0)
  | Except.ok _ =>
    if (m.MDinfo.getD module_nr default).digital_in_index ≠ 0xFFFF then
      if size ≤ (m.dig_in_buffer.length : Int) -
          (((m.MDinfo.getD module_nr default).digital_in_index : Int) * 8 + (offset : Int)) then
        match resp with
        | ReadResp.ok bits => (Except.ok (pySlice bits size), 1)
        | ReadResp.isErr => (Except.error excUnhandled, 1)
        | ReadResp.ioFault => (Except.error excDevice, 1)
        | ReadResp.exnOther => (Except.error excUnhandled, 1)
      else (Except.error excDataSize, 0)
    else (Except.error excNoDigInData, 0)

/-- `MasterBRBC.WriteDigitalOutputs` (lines 306-348). -/
def WriteDigitalOutputs (m : MasterBRBC) (wresp : WriteResp)
    (module_nr : Nat) (values : List Bool) (offset : Nat) : Except Nat Bool × Nat :=
  match ValidateData m module_nr (values.length : Int) with
  | Except.error e => (Except.error e, 0)
  | Except.ok _ =>
    if (m.MDinfo.getD module_nr default).digital_out_index ≠ 0xFFFF then
      if (values.length : Int) ≤ (m.dig_out_buffer.length : Int) -
          (((m.MDinfo.getD module_nr default).digital_out_index : Int) * 8 + (offset : Int)) then
        match wresp with
        | WriteResp.ok => (Except.ok true, 1)
        | WriteResp.ioFault => (Except.error excDevice, 1)
        | WriteResp.exnOther => (Except.error excUnhandled, 1)
      else (Except.error excDataSize, 0)
    else (Except.error excNoDigOutData, 0)

/-- `MasterBRBC.ReadAnalogInputs` (lines 350-402).  The analog index is
halved with Python floor division (`// 2`, on nonnegative values equal
to `Nat` division).  `size` is a Python `int` and may be negative. -/
def ReadAnalogInputs (m : MasterBRBC) (resp : ReadResp Int)
    (module_nr : Nat) (size : Int) (offset : Nat) : Except Nat (List Int) × Nat :=
  match ValidateData m module_nr size with
  | Except.error e => (Except.error e, 0)
  | Except.ok _ =>
    if (m.MDinfo.getD module_nr default).analog_in_index ≠ 0xFFFF then
      if size ≤ (m.ana_in_buffer.length : Int) -
          ((((m.MDinfo.getD module_nr default).analog_in_index / 2 : Nat) : Int) + (offset : Int)) then
        match resp with
        | ReadResp.ok regsData => (Except.ok regsData, 1)
        | ReadResp.isErr => (Except.error excUnhandled, 1)
        | ReadResp.ioFault => (Except.error excDevice, 1)
        | ReadResp.exnOther => (Except.error excUnhandled, 1)
      else (Except.error excDataSize, 0)
    else (Except.error excNoAnaInData, 0)

/-- The `values` argument of `MasterBRBC.WriteAnalogOutputs`: the source
accepts a single value or a list. -/
inductive AnaValues where
  | scalar (v : Int)
  | list (vs : List Int)
  deriving DecidableEq, Repr

/-- The normalization at lines 422-424: `if not isinstance(values, list):
values = [values]`. -/
def normValues : AnaValues → List Int
  | AnaValues.scalar v => [v]
  | AnaValues.list vs => vs

/-- `MasterBRBC.WriteAnalogOutputs` (lines 404-450). -/
def WriteAnalogOutputs (m : MasterBRBC) (wresp : WriteResp)
    (module_nr : Nat) (values : AnaValues) (offset : Nat) : Except Nat Bool × Nat :=
  match ValidateData m module_nr ((normValues values).length : Int) with
  | Except.error e => (Except.error e, 0)
  | Except.ok _ =>
    if (m.MDinfo.getD module_nr default).analog_out_index ≠ 0xFFFF then
      if ((normValues values).length : Int) ≤ (m.ana_out_buffer.length : Int) -
          ((((m.MDinfo.getD module_nr default).analog_out_index / 2 : Nat) : Int) + (offset : Int)) then
        match wresp with
        | WriteResp.ok => (Except.ok true, 1)
        | WriteResp.ioFault => (Except.error excDevice, 1)
        | WriteResp.exnOther => (Except.error excUnhandled, 1)
      else (Except.error excDataSize, 0)
    else (Except.error excNoAnaOutData, 0)

/-! The `RefreshTimer` background scheduler (modbusTCPBRBCinfo.py,
lines 28-76) as a labelled transition system over the observable
counters of the thread interleaving. -/

/-- Observable state of a `RefreshTimer` and its `threading.Timer`
chain: whether `_stop_event` is set, how many `threading.Timer`
instances are scheduled but have not yet fired, how many executions of
`task_function` are in flight / have started / have completed, and
whether `stop()` has returned. -/
structure TimerState where
  stopEventSet : Bool
  pendingTimers : Nat
  ticksInFlight : Nat
  ticksStarted : Nat
  ticksCompleted : Nat
  stopReturned : Bool
  deriving DecidableEq, Repr

/-- One step of the timer system.  `runBeginActive` / `runBeginStopped`
is a scheduled `_run` firing and performing its `_stop_event.is_set()`
check (lines 54-55): when the event is clear the task starts, when it is
set `_run` returns without running the task or scheduling anything.
`tickFinish` is `task_function()` returning normally, after which `_run`
starts the next `threading.Timer` (line 58); `tickFinishRaise` is
`task_function()` raising, which ends the tick without reaching line 58.
`stopCall` is `stop()` (lines 69-76): it sets `_stop_event` and returns
immediately — the source contains no join or wait on the running
task. -/
inductive StepRT : TimerState → TimerState → Prop where
  | runBeginActive (s : TimerState) (hp : 0 < s.pendingTimers)
      (hs : s.stopEventSet = false) :
      StepRT s { s with pendingTimers := s.pendingTimers - 1,
                        ticksInFlight := s.ticksInFlight + 1,
                        ticksStarted := s.ticksStarted + 1 }
  | runBeginStopped (s : TimerState) (hp : 0 < s.pendingTimers)
      (hs : s.stopEventSet = true) :
      StepRT s { s with pendingTimers := s.pendingTimers - 1 }
  | tickFinish (s : TimerState) (ht : 0 < s.ticksInFlight) :
      StepRT s { s with ticksInFlight := s.ticksInFlight - 1,
                        ticksCompleted := s.ticksCompleted + 1,
                        pendingTimers := s.pendingTimers + 1 }
  | tickFinishRaise (s : TimerState) (ht : 0 < s.ticksInFlight) :
      StepRT s { s with ticksInFlight := s.ticksInFlight - 1,
                        ticksCompleted := s.ticksCompleted + 1 }
  | stopCall (s : TimerState) :
      StepRT s { s with stopEventSet := true, stopReturned := true }

/-- State right after `start()`: the stop event is clear, the first
(inline) `_run` execution has completed and has scheduled one
`threading.Timer`. -/
def timerInit : TimerState :=
  { stopEventSet := false, pendingTimers := 1, ticksInFlight := 0,
    ticksStarted := 1, ticksCompleted := 1, stopReturned := false }

/-- Reachability from the armed state. -/
def ReachRT (s : TimerState) : Prop :=
  Relation.ReflTransGen StepRT timerInit s

/-! One watchdog tick (modbusTCPBRBCinfo.py, lines 245-258) and the
scheduling behaviour of `RefreshTimer._run` (lines 47-58). -/

/-- `MasterBRBCinfo._RefreshTimer_Elapsed`.  `statusRead` is the
transport outcome of the `watchdog_status` read (register 0x1042 via
`_SyncReadWord`; `none` is a transport fault, turned into
`OnException(excDevice, ...)`).  A status equal to the expired sentinel
0xC2 raises `OnException(excWatchdog)`.  `liveRead` is the outcome of
the subsequent direct `client.read_input_registers(0x1042, 1)` call; on
an error response the source raises (it even names the non-existent
attribute `self.BRmaster.OnException`, so an `AttributeError` escapes),
modelled as `excUnhandled`.  The trailing `except Exception: raise
error` handler re-raises unchanged.  When the session is not connected
the tick is a no-op. -/
def refreshTimerElapsed (connected : Bool) (statusRead : Option Nat)
    (liveRead : Option Nat) : Except Nat Unit :=
  if connected then
    match statusRead with
    | none => Except.error excDevice
    | some st =>
      if st = 0xC2 then Except.error excWatchdog
      else
        match liveRead with
        | none => Except.error excUnhandled
        | some _ => Except.ok ()
  else Except.ok ()

/-- One sequential execution of `RefreshTimer._run` given the stop flag
and the tick outcome.  Returns `Except.ok true` when the next
`threading.Timer` was scheduled (line 58), `Except.ok false` when the
stop event suppressed the tick, and propagates the tick's exception —
which is raised by `task_function()` at line 55, before line 58 is
reached, so a raising tick schedules nothing. -/
def RefreshTimer_run (stopped : Bool) (tick : Except Nat Unit) : Except Nat Bool :=
  if stopped then Except.ok false
  else
    match tick with
    | Except.ok _ => Except.ok true
    | Except.error e => Except.error e

/-! `MasterBRBC.Disconnect` (modbusTCPBR.py, lines 204-223). -/

/-- Teardown actions of `Disconnect`, in execution order. -/
inductive DAct where
  | closeTransport
  | stopTimer
  | clearBCinfo
  | clearMDinfo
  deriving DecidableEq, Repr

/-- The session attributes `Disconnect` touches.  `dig_in_buffer`
stands for the four process-image buffers, none of which `Disconnect`
touches. -/
structure SessionState where
  hasClient : Bool
  connected : Bool
  hasBCinfo : Bool
  timerArmed : Bool
  hasMDinfo : Bool
  dig_in_buffer : List Bool
  deriving DecidableEq, Repr

/-- `MasterBRBC.Disconnect`: with a client present it closes the
transport and drops the client, clears `_connected`, stops the refresh
timer when `self.BCinfo and self.BCinfo.RefreshTimer` holds, then sets
`BCinfo` and `MDinfo` to `None`; with no client it returns at once.
The second component records the teardown actions in the order the
source performs them. -/
def Disconnect (s : SessionState) : SessionState × List DAct :=
  if s.hasClient then
    ({ s with hasClient := false, connected := false, hasBCinfo := false,
              timerArmed := false, hasMDinfo := false },
     DAct.closeTransport ::
       ((if s.hasBCinfo && s.timerArmed then [DAct.stopTimer] else []) ++
        [DAct.clearBCinfo, DAct.clearMDinfo]))
  else (s, [])

/-! The IP codec around `com_ip_flash` (modbusTCPBRBCinfo.py, lines
110-166) and `_WordArray2WordByte` (modbusTCPBR.py, lines 641-657).
Python strings are modelled as `List Char`. -/

/-- Python `int(x)` on the decimal-digit strings this driver produces;
a non-digit character or the empty string raises `ValueError`, modelled
as `none`.  (Signs, whitespace and underscores accepted by the real
`int` never occur in dotted-quad octet fields written by this driver
and are not modelled.) -/
def pyInt (cs : List Char) : Option Nat :=
  if cs.isEmpty then none
  else if cs.all Char.isDigit then
    some (cs.foldl (fun a c => a * 10 + (c.toNat - 48)) 0)
  else none

/-- Python `adr.split('.')`: splits at every dot, keeping empty
fields. -/
def splitDot : List Char → List (List Char)
  | [] => [[]]
  | c :: cs =>
    if c = '.' then [] :: splitDot cs
    else
      match splitDot cs with
      | [] => [[c]]
      | t :: ts => (c :: t) :: ts

/-- The list comprehension `[int(x) for x in parts]` under the
surrounding `try`: the fields are converted left to right and the first
`ValueError` aborts the whole conversion. -/
def intList : List (List Char) → Option (List Nat)
  | [] => some []
  | x :: xs =>
    match pyInt x with
    | none => none
    | some v =>
      match intList xs with
      | none => none
      | some vs => some (v :: vs)

/-- `MasterBRBCinfo._string_to_address`: `[int(x) for x in
adr.split('.')]`, with `None` on `ValueError`. -/
def string_to_address (adr : List Char) : Option (List Nat) :=
  intList (splitDot adr)

/-- Decimal rendering of one digit position chain: helper for the
Python `str(int)` / f-string formatting used when the getter builds the
dotted quad.  Structural fuel recursion; `natToChars` supplies enough
fuel. -/
def natToCharsAux : Nat → Nat → List Char
  | 0, _ => []
  | fuel+1, n =>
    if n = 0 then []
    else natToCharsAux fuel (n / 10) ++ [Nat.digitChar (n % 10)]

/-- Python decimal formatting of a nonnegative integer, as used by the
f-string in the `com_ip_flash` getter. -/
def natToChars (n : Nat) : List Char :=
  if n = 0 then '0' :: [] else natToCharsAux (n + 1) n

/-- `client.write_registers(adr, values)` as performed by
`_SyncWriteRegisters`: consecutive registers starting at `adr` receive
the listed values. -/
def writeRegs : (Nat → Nat) → Nat → List Nat → Nat → Nat
  | regs, _, [] => regs
  | regs, adr, v :: rest =>
      writeRegs (fun a => if a = adr then v else regs a) (adr + 1) rest

/-- `struct.pack(">H", w)`: the two big-endian bytes of a 16-bit
word. -/
def wordToBytes (w : Nat) : List Nat := [w / 256 % 256, w % 256]

/-- `MasterBRBC._WordArray2WordByte`: packs each word as two big-endian
bytes and concatenates. -/
def WordArray2WordByte : List Nat → List Nat
  | [] => []
  | w :: ws => wordToBytes w ++ WordArray2WordByte ws

/-- The `com_ip_flash` setter: parses the dotted string with
`_string_to_address` and, when the result is truthy (a non-empty list),
writes it to registers 0x1003 upward; otherwise writes nothing. -/
def com_ip_flash_set (regs : Nat → Nat) (value : List Char) : Nat → Nat :=
  match string_to_address value with
  | some vs => if vs.isEmpty then regs else writeRegs regs 0x1003 vs
  | none => regs

/-- The `com_ip_flash` getter: reads four registers at 0x1003, converts
them to bytes with `_WordArray2WordByte`, and formats bytes 1, 3, 5, 7
(the low byte of each word) as a dotted quad; a byte list of the wrong
length yields the string "error". -/
def com_ip_flash_get (regs : Nat → Nat) : List Char :=
  if (WordArray2WordByte [regs 0x1003, regs 0x1004, regs 0x1005, regs 0x1006]).length ≠ 8 then
    "error".data
  else
    natToChars ((WordArray2WordByte [regs 0x1003, regs 0x1004, regs 0x1005, regs 0x1006]).getD 1 0) ++
    '.' :: natToChars ((WordArray2WordByte [regs 0x1003, regs 0x1004, regs 0x1005, regs 0x1006]).getD 3 0) ++
    '.' :: natToChars ((WordArray2WordByte [regs 0x1003, regs 0x1004, regs 0x1005, regs 0x1006]).getD 5 0) ++
    '.' :: natToChars ((WordArray2WordByte [regs 0x1003, regs 0x1004, regs 0x1005, regs 0x1006]).getD 7 0)

/-- The dotted-quad string of four octets, exactly as Python formats
it. -/
def ipChars (a b c d : Nat) : List Char :=
  natToChars a ++ '.' :: (natToChars b ++ '.' :: (natToChars c ++ '.' :: natToChars d))

/-! Theorems.  Helper lemmas first, then one theorem (plus witness or
counterexample) per claim. -/

/-- `_ValidateData` succeeds exactly on a connected session, an existing
module and a nonzero (possibly negative) size. -/
theorem ValidateData_ok (m : MasterBRBC) (module_nr : Nat) (size : Int)
    (hc : m.connected = true) (hm : module_nr < m.MDinfo.length) (hs : size ≠ 0) :
    ValidateData m module_nr size = Except.ok true := by
  unfold ValidateData
  rw [if_neg (by simp [hc]), if_neg (by omega), if_neg hs]

/-- `_ValidateData` on a disconnected session. -/
theorem ValidateData_notConnected (m : MasterBRBC) (module_nr : Nat) (size : Int)
    (hc : m.connected = false) :
    ValidateData m module_nr size = Except.error excConnection := by
  unfold ValidateData
  rw [if_pos hc]

/-- `_ValidateData` on a module number past the end of `MDinfo`. -/
theorem ValidateData_noModule (m : MasterBRBC) (module_nr : Nat) (size : Int)
    (hc : m.connected = true) (hm : m.MDinfo.length ≤ module_nr) :
    ValidateData m module_nr size = Except.error excNoModule := by
  unfold ValidateData
  rw [if_neg (by simp [hc]), if_pos (by omega)]

/-- `_ValidateData` on a zero size. -/
theorem ValidateData_sizeZero (m : MasterBRBC) (module_nr : Nat)
    (hc : m.connected = true) (hm : module_nr < m.MDinfo.length) :
    ValidateData m module_nr 0 = Except.error excDataSize := by
  unfold ValidateData
  rw [if_neg (by simp [hc]), if_neg (by omega), if_pos rfl]

/-- Claim C10: for every non-list scalar value `v`,
`WriteAnalogOutputs(module, v, offset)` behaves exactly like
`WriteAnalogOutputs(module, [v], offset)` — the scalar is normalized to
a one-element list before validation, so validation, capability check,
bounds check, register write and return value coincide. -/
theorem claim_C10 (m : MasterBRBC) (wresp : WriteResp) (module_nr : Nat)
    (v : Int) (offset : Nat) :
    WriteAnalogOutputs m wresp module_nr (AnaValues.scalar v) offset =
      WriteAnalogOutputs m wresp module_nr (AnaValues.list [v]) offset := rfl

/-- Claim C4, counterexample: the claim says a tick that observes the
expired sentinel 0xC2, or whose liveness read faults, still leads to the
next tick being scheduled (`RefreshTimer_run` ending with the next timer
started, `Except.ok true`).  In the code the tick raises and the
exception propagates out of `task_function()` inside `_run` before
`threading.Timer(...).start()` is reached, so with the concrete inputs
below the run ends in an error, not in a scheduled next tick. -/
theorem claim_C4_counterexample :
    (RefreshTimer_run false (refreshTimerElapsed true (some 0xC2) (some 0xC1)) =
        Except.error excWatchdog ∧
      RefreshTimer_run false (refreshTimerElapsed true (some 0xC2) (some 0xC1)) ≠
        Except.ok true) ∧
    (RefreshTimer_run false (refreshTimerElapsed true none (some 0xC1)) =
        Except.error excDevice ∧
      RefreshTimer_run false (refreshTimerElapsed true none (some 0xC1)) ≠
        Except.ok true) :=
  ⟨⟨rfl, fun h => Except.noConfusion h⟩, ⟨rfl, fun h => Except.noConfusion h⟩⟩

/-- Claim C4, amended: a tick that reads the expired sentinel 0xC2
raises `excWatchdog`, a tick whose status read faults raises
`excDevice`, and any raising tick propagates out of `_run` before the
next `threading.Timer` is scheduled — the scheduler stops on a failing
tick; only a tick that returns normally schedules the next
execution. -/
theorem claim_C4_amended (lv : Option Nat) (e : Nat) (u : Unit) :
    refreshTimerElapsed true (some 0xC2) lv = Except.error excWatchdog ∧
    refreshTimerElapsed true none lv = Except.error excDevice ∧
    RefreshTimer_run false (Except.error e) = Except.error e ∧
    RefreshTimer_run false (Except.ok u) = Except.ok true ∧
    RefreshTimer_run true (Except.error e) = Except.ok false :=
  ⟨rfl, rfl, rfl, rfl, rfl⟩

/-- A fully populated, connected session with an armed refresh timer. -/
def sC6 : SessionState :=
  { hasClient := true, connected := true, hasBCinfo := true, timerArmed := true,
    hasMDinfo := true, dig_in_buffer := [false, false] }

/-- Claim C6, counterexample: on a connected session with an armed
refresh timer the claim requires the teardown trace to begin with the
watchdog disarm (`stopTimer` before `closeTransport`) and to discard the
buffers.  The code closes the transport first — the trace starts with
`closeTransport` — and leaves the process-image buffers untouched. -/
theorem claim_C6_counterexample :
    (Disconnect sC6).2 =
      [DAct.closeTransport, DAct.stopTimer, DAct.clearBCinfo, DAct.clearMDinfo] ∧
    (Disconnect sC6).2.head? ≠ some DAct.stopTimer ∧
    (Disconnect sC6).1.dig_in_buffer ≠ [] := by
  refine ⟨rfl, ?_, ?_⟩ <;> decide

/-- Claim C6, amended: `Disconnect` with a client present closes and
releases the transport first, then clears the connected flag, then
stops the refresh timer when `BCinfo` and its timer exist, then sets
`BCinfo` and `MDinfo` to `None` — in that order — and leaves the
process-image buffers untouched; calling it with no client is a no-op
that changes nothing and raises no error. -/
theorem claim_C6_amended (s : SessionState) :
    (s.hasClient = true →
      Disconnect s =
        ({ s with hasClient := false, connected := false, hasBCinfo := false,
                  timerArmed := false, hasMDinfo := false },
         DAct.closeTransport ::
           ((if s.hasBCinfo && s.timerArmed then [DAct.stopTimer] else []) ++
            [DAct.clearBCinfo, DAct.clearMDinfo])) ∧
      (Disconnect s).1.dig_in_buffer = s.dig_in_buffer) ∧
    (s.hasClient = false → Disconnect s = (s, [])) := by
  constructor
  · intro h
    unfold Disconnect
    rw [if_pos h]
    exact ⟨rfl, rfl⟩
  · intro h
    unfold Disconnect
    rw [if_neg (by simp [h])]

/-- Witness for the amended claim C6 at two concrete sessions: one with
a client and armed timer, one already disconnected. -/
theorem claim_C6_witness :
    (Disconnect sC6 =
      ({ hasClient := false, connected := false, hasBCinfo := false,
         timerArmed := false, hasMDinfo := false, dig_in_buffer := [false, false] },
       [DAct.closeTransport, DAct.stopTimer, DAct.clearBCinfo, DAct.clearMDinfo]) ∧
     (Disconnect sC6).1.dig_in_buffer = sC6.dig_in_buffer) ∧
    Disconnect { sC6 with hasClient := false } = ({ sC6 with hasClient := false }, []) :=
  ⟨(claim_C6_amended sC6).1 rfl, (claim_C6_amended { sC6 with hasClient := false }).2 rfl⟩

/-- Claim C1, counterexample: the claim — formalised over the
`RefreshTimer` transition system — says that in every reachable state
in which `stop()` has returned, no tick is in flight, and that no step
taken after `stop()` has returned completes a tick.  Both parts fail:
from the armed state a scheduled `_run` can fire and start its task,
then `stop()` sets the event and returns immediately (there is no join),
reaching a state with `stopReturned = true` and one tick still in
flight, which the next step completes. -/
theorem claim_C1_counterexample :
    ¬ ((∀ s, ReachRT s → s.stopReturned = true → s.ticksInFlight = 0) ∧
       (∀ s s', ReachRT s → s.stopReturned = true → StepRT s s' →
         s'.ticksCompleted = s.ticksCompleted)) := by
  intro h
  have h1 : StepRT timerInit
      { stopEventSet := false, pendingTimers := 0, ticksInFlight := 1,
        ticksStarted := 2, ticksCompleted := 1, stopReturned := false } :=
    StepRT.runBeginActive timerInit (by decide) rfl
  have h2 : StepRT
      { stopEventSet := false, pendingTimers := 0, ticksInFlight := 1,
        ticksStarted := 2, ticksCompleted := 1, stopReturned := false }
      { stopEventSet := true, pendingTimers := 0, ticksInFlight := 1,
        ticksStarted := 2, ticksCompleted := 1, stopReturned := true } :=
    StepRT.stopCall _
  have hr : ReachRT
      { stopEventSet := true, pendingTimers := 0, ticksInFlight := 1,
        ticksStarted := 2, ticksCompleted := 1, stopReturned := true } :=
    Relation.ReflTransGen.tail (Relation.ReflTransGen.tail Relation.ReflTransGen.refl h1) h2
  have := h.1 _ hr rfl
  exact absurd this (by decide)

/-- Claim C1, amended: `stop()` only sets the stop event and returns
without any join or wait.  Once the event is set no step starts a new
tick (a firing `_run` sees the event and executes nothing) and the event
stays set, but a tick already in flight when `stop()` returns is not
waited for and may still be running — and complete — afterwards. -/
theorem claim_C1_amended (s s' : TimerState) (hset : s.stopEventSet = true)
    (hstep : StepRT s s') :
    s'.ticksStarted = s.ticksStarted ∧ s'.stopEventSet = true := by
  cases hstep with
  | runBeginActive hp hs => rw [hset] at hs; cases hs
  | runBeginStopped hp hs => exact ⟨rfl, hset⟩
  | tickFinish ht => exact ⟨rfl, hset⟩
  | tickFinishRaise ht => exact ⟨rfl, hset⟩
  | stopCall => exact ⟨rfl, rfl⟩

/-- Witness for the amended claim C1 at a concrete stopped state with
one pending timer firing. -/
theorem claim_C1_witness :
    ({ stopEventSet := true, pendingTimers := 0, ticksInFlight := 0,
       ticksStarted := 1, ticksCompleted := 1, stopReturned := true } : TimerState).ticksStarted =
      ({ stopEventSet := true, pendingTimers := 1, ticksInFlight := 0,
         ticksStarted := 1, ticksCompleted := 1, stopReturned := true } : TimerState).ticksStarted ∧
    ({ stopEventSet := true, pendingTimers := 0, ticksInFlight := 0,
       ticksStarted := 1, ticksCompleted := 1, stopReturned := true } : TimerState).stopEventSet = true :=
  claim_C1_amended _ _ rfl
    (StepRT.runBeginStopped
      { stopEventSet := true, pendingTimers := 1, ticksInFlight := 0,
        ticksStarted := 1, ticksCompleted := 1, stopReturned := true } (by decide) rfl)

/-- Claim C3: on a connected session, for an existing module whose
digital index is not the 0xFFFF sentinel, a positive size and an offset
with `index * 8 + offset + size > buffer length`, `ReadDigitalInputs`
(resp. `WriteDigitalOutputs`, whose size is `len(values)`) fails with
`excDataSize` and issues zero transport calls. -/
theorem claim_C3 (m : MasterBRBC) (resp : ReadResp Bool) (wresp : WriteResp)
    (module_nr : Nat) (size : Int) (offset : Nat) (values : List Bool) :
    (m.connected = true → module_nr < m.MDinfo.length → 0 < size →
      (m.MDinfo.getD module_nr default).digital_in_index ≠ 0xFFFF →
      (m.dig_in_buffer.length : Int) <
        ((m.MDinfo.getD module_nr default).digital_in_index : Int) * 8 + offset + size →
      ReadDigitalInputs m resp module_nr size offset = (Except.error excDataSize, 0)) ∧
    (m.connected = true → module_nr < m.MDinfo.length → 0 < values.length →
      (m.MDinfo.getD module_nr default).digital_out_index ≠ 0xFFFF →
      m.dig_out_buffer.length <
        (m.MDinfo.getD module_nr default).digital_out_index * 8 + offset + values.length →
      WriteDigitalOutputs m wresp module_nr values offset = (Except.error excDataSize, 0)) := by
  constructor
  · intro hc hm hs hidx hover
    simp only [ReadDigitalInputs, ValidateData_ok m module_nr size hc hm (by omega)]
    rw [if_pos hidx, if_neg (by omega)]
  · intro hc hm hs hidx hover
    simp only [WriteDigitalOutputs,
      ValidateData_ok m module_nr (values.length : Int) hc hm (by omega)]
    rw [if_pos hidx, if_neg (by omega)]

/-- A connected one-module session whose digital-in/out data start at
byte index 1 of four-bit-long buffers, so that any five-bit access
overruns. -/
def mC3 : MasterBRBC :=
  { connected := true, MDinfo := [⟨77, 0xFFFF, 0xFFFF, 1, 1⟩],
    dig_in_buffer := [false, false, false, false],
    dig_out_buffer := [false, false, false, false],
    ana_in_buffer := [], ana_out_buffer := [] }

/-- Witness for claim C3 at the concrete session `mC3`: reading or
writing 5 digital bits of module 0 (absolute bit address 8, buffer
length 4) fails with `excDataSize` and no transport call. -/
theorem claim_C3_witness :
    ReadDigitalInputs mC3 (ReadResp.ok [true]) 0 5 0 = (Except.error excDataSize, 0) ∧
    WriteDigitalOutputs mC3 WriteResp.ok 0 [true, true, true, true, true] 0 =
      (Except.error excDataSize, 0) :=
  ⟨(claim_C3 mC3 (ReadResp.ok [true]) WriteResp.ok 0 5 0
      [true, true, true, true, true]).1 rfl (by decide) (by decide) (by decide) (by decide),
   (claim_C3 mC3 (ReadResp.ok [true]) WriteResp.ok 0 5 0
      [true, true, true, true, true]).2 rfl (by decide) (by decide) (by decide) (by decide)⟩

/-- A connected one-module session whose module's digital inputs start
at index 0 of a four-bit buffer, used to drive a negative size through
validation and the bounds check into the transport call. -/
def mC7neg : MasterBRBC :=
  { connected := true, MDinfo := [⟨77, 0xFFFF, 0xFFFF, 0, 0⟩],
    dig_in_buffer := [false, false, false, false],
    dig_out_buffer := [false, false, false, false],
    ana_in_buffer := [], ana_out_buffer := [] }

/-- Claim C7, counterexample: the claim says a size that is not > 0
fails with `excDataSize` before any transport call.  `_ValidateData`
checks only `size == 0`, so the negative size `-1` (not > 0) passes
validation, passes the bounds check (`-1 <= len - addr`), and reaches
`client.read_discrete_inputs`: one transport call is issued, no
`excDataSize` is raised, and the call returns the Python slice
`bits[:-1]` of the response. -/
theorem claim_C7_counterexample :
    ¬ (0 : Int) < -1 ∧
    ReadDigitalInputs mC7neg (ReadResp.ok [true, true]) 0 (-1) 0 =
      (Except.ok [true], 1) ∧
    (ReadDigitalInputs mC7neg (ReadResp.ok [true, true]) 0 (-1) 0).1 ≠
      Except.error excDataSize ∧
    (ReadDigitalInputs mC7neg (ReadResp.ok [true, true]) 0 (-1) 0).2 ≠ 0 :=
  ⟨by decide, rfl, fun h => Except.noConfusion h, by decide⟩

/-- Claim C7, amended: each of the four foreground I/O operations fails
with `excConnection` when the session is not connected, with
`excNoModule` when the module number does not index an existing Module
Descriptor, and with `excDataSize` when the size is exactly zero (the
source checks `size == 0` only; a negative size is not caught — see the
counterexample) — each checked in that order by `_ValidateData` and
raised with zero transport calls issued. -/
theorem claim_C7_amended (m : MasterBRBC) (resp : ReadResp Bool) (aresp : ReadResp Int)
    (wresp awresp : WriteResp) (module_nr : Nat) (size : Int) (offset : Nat)
    (dvals : List Bool) (avals : AnaValues) :
    (m.connected = false →
      ReadDigitalInputs m resp module_nr size offset = (Except.error excConnection, 0) ∧
      WriteDigitalOutputs m wresp module_nr dvals offset = (Except.error excConnection, 0) ∧
      ReadAnalogInputs m aresp module_nr size offset = (Except.error excConnection, 0) ∧
      WriteAnalogOutputs m awresp module_nr avals offset = (Except.error excConnection, 0)) ∧
    (m.connected = true → m.MDinfo.length ≤ module_nr →
      ReadDigitalInputs m resp module_nr size offset = (Except.error excNoModule, 0) ∧
      WriteDigitalOutputs m wresp module_nr dvals offset = (Except.error excNoModule, 0) ∧
      ReadAnalogInputs m aresp module_nr size offset = (Except.error excNoModule, 0) ∧
      WriteAnalogOutputs m awresp module_nr avals offset = (Except.error excNoModule, 0)) ∧
    (m.connected = true → module_nr < m.MDinfo.length →
      ReadDigitalInputs m resp module_nr 0 offset = (Except.error excDataSize, 0) ∧
      WriteDigitalOutputs m wresp module_nr [] offset = (Except.error excDataSize, 0) ∧
      ReadAnalogInputs m aresp module_nr 0 offset = (Except.error excDataSize, 0) ∧
      WriteAnalogOutputs m awresp module_nr (AnaValues.list []) offset =
        (Except.error excDataSize, 0)) := by
  refine ⟨fun hc => ?_, fun hc hm => ?_, fun hc hm => ?_⟩
  · exact ⟨by simp only [ReadDigitalInputs, ValidateData_notConnected m module_nr size hc],
      by simp only [WriteDigitalOutputs,
        ValidateData_notConnected m module_nr (dvals.length : Int) hc],
      by simp only [ReadAnalogInputs, ValidateData_notConnected m module_nr size hc],
      by simp only [WriteAnalogOutputs,
        ValidateData_notConnected m module_nr ((normValues avals).length : Int) hc]⟩
  · exact ⟨by simp only [ReadDigitalInputs, ValidateData_noModule m module_nr size hc hm],
      by simp only [WriteDigitalOutputs,
        ValidateData_noModule m module_nr (dvals.length : Int) hc hm],
      by simp only [ReadAnalogInputs, ValidateData_noModule m module_nr size hc hm],
      by simp only [WriteAnalogOutputs,
        ValidateData_noModule m module_nr ((normValues avals).length : Int) hc hm]⟩
  · refine ⟨by simp only [ReadDigitalInputs, ValidateData_sizeZero m module_nr hc hm],
      ?_, by simp only [ReadAnalogInputs, ValidateData_sizeZero m module_nr hc hm], ?_⟩
    · have h0 : ([] : List Bool).length = 0 := rfl
      simp only [WriteDigitalOutputs, h0, Nat.cast_zero,
        ValidateData_sizeZero m module_nr hc hm]
    · have h0 : (normValues (AnaValues.list [])).length = 0 := rfl
      simp only [WriteAnalogOutputs, h0, Nat.cast_zero,
        ValidateData_sizeZero m module_nr hc hm]

/-- A disconnected session used by the claim C7 witness. -/
def mC7nc : MasterBRBC :=
  { connected := false, MDinfo := [], dig_in_buffer := [], dig_out_buffer := [],
    ana_in_buffer := [], ana_out_buffer := [] }

/-- A connected session with no modules, then with one module, used by
the claim C7 witness. -/
def mC7empty : MasterBRBC :=
  { connected := true, MDinfo := [], dig_in_buffer := [], dig_out_buffer := [],
    ana_in_buffer := [], ana_out_buffer := [] }

/-- Witness for the amended claim C7 at concrete sessions: a
disconnected session, a connected session with no module 0, and a
connected session (`mC3`) with a zero-size access. -/
theorem claim_C7_witness :
    ReadDigitalInputs mC7nc (ReadResp.ok []) 0 1 0 = (Except.error excConnection, 0) ∧
    WriteAnalogOutputs mC7empty WriteResp.ok 0 (AnaValues.scalar 7) 0 =
      (Except.error excNoModule, 0) ∧
    ReadAnalogInputs mC3 (ReadResp.ok []) 0 0 0 = (Except.error excDataSize, 0) :=
  ⟨((claim_C7_amended mC7nc (ReadResp.ok []) (ReadResp.ok []) WriteResp.ok WriteResp.ok 0 1 0 []
      (AnaValues.scalar 7)).1 rfl).1,
   (((claim_C7_amended mC7empty (ReadResp.ok []) (ReadResp.ok []) WriteResp.ok WriteResp.ok 0 1 0
      [] (AnaValues.scalar 7)).2.1 rfl (by decide)).2.2.2),
   (((claim_C7_amended mC3 (ReadResp.ok []) (ReadResp.ok []) WriteResp.ok WriteResp.ok 0 1 0 []
      (AnaValues.scalar 7)).2.2 rfl (by decide)).2.2.1)⟩

/-- Claim C8: on a connected session, for an existing module whose
`digital_in_index` is the 0xFFFF sentinel, `ReadDigitalInputs` with any
positive size fails with `excNoDigInData` regardless of the digital-in
buffer length, with zero transport calls.  (The offset is quantified;
the claim's `offset = 0` is the instance `offset := 0`.) -/
theorem claim_C8 (m : MasterBRBC) (resp : ReadResp Bool)
    (module_nr : Nat) (size : Int) (offset : Nat)
    (hc : m.connected = true) (hm : module_nr < m.MDinfo.length) (hs : 0 < size)
    (hidx : (m.MDinfo.getD module_nr default).digital_in_index = 0xFFFF) :
    ReadDigitalInputs m resp module_nr size offset = (Except.error excNoDigInData, 0) := by
  simp only [ReadDigitalInputs, ValidateData_ok m module_nr size hc hm (by omega)]
  rw [if_neg (fun h => h hidx)]

/-- A connected one-module session whose module has no digital inputs
(`digital_in_index = 0xFFFF`) but a large digital-in buffer. -/
def mC8 : MasterBRBC :=
  { connected := true, MDinfo := [⟨77, 0, 0, 0xFFFF, 0⟩],
    dig_in_buffer := List.replicate 64 false,
    dig_out_buffer := [], ana_in_buffer := [], ana_out_buffer := [] }

/-- Witness for claim C8 at the concrete session `mC8`. -/
theorem claim_C8_witness :
    ReadDigitalInputs mC8 (ReadResp.ok [true]) 0 8 0 = (Except.error excNoDigInData, 0) :=
  claim_C8 mC8 (ReadResp.ok [true]) 0 8 0 rfl (by decide) (by decide) (by decide)

/-- The `MasterBRMDinfo` constructor on a slot all of whose registers
read successfully. -/
theorem mkMDinfo_defined (regs : Nat → Option Nat) (f : Nat → Nat) (k : Nat)
    (h : ∀ a, a ∈ slotReadAddrs k → regs a = some (f a)) :
    mkMDinfo regs k =
      (Except.ok (mdOfRegs f k),
       [0xA001 + k * 16, 0xA004 + k * 16, 0xA005 + k * 16, 0xA006 + k * 16,
        0xA007 + k * 16]) := by
  unfold mkMDinfo
  rw [h (0xA001 + k * 16) (by simp [slotReadAddrs]),
      h (0xA004 + k * 16) (by simp [slotReadAddrs]),
      h (0xA005 + k * 16) (by simp [slotReadAddrs]),
      h (0xA006 + k * 16) (by simp [slotReadAddrs]),
      h (0xA007 + k * 16) (by simp [slotReadAddrs])]
  rfl

/-- The `MasterBRMDinfo` constructor whose very first read faults. -/
theorem mkMDinfo_fault_first (regs : Nat → Option Nat) (k : Nat)
    (hfault : regs (0xA001 + k * 16) = none) :
    mkMDinfo regs k = (Except.error excDevice, [0xA001 + k * 16]) := by
  unfold mkMDinfo
  rw [hfault]

/-- Walking `m` fault-free, nonzero-status slots starting at `k`
appends their descriptors and reads, then continues at slot `k + m`
with the remaining fuel. -/
theorem masterMDinfoGo_walk (regs : Nat → Option Nat) (f : Nat → Nat) :
    ∀ m k fuel,
      (∀ i, i < m → ∀ a, a ∈ slotReadAddrs (k + i) → regs a = some (f a)) →
      (∀ i, i < m → f (0xA000 + (k + i) * 16) ≠ 0) →
      m ≤ fuel →
      masterMDinfoGo regs k fuel =
        ((masterMDinfoGo regs (k + m) (fuel - m)).1,
         (slotMods f k m ++ (masterMDinfoGo regs (k + m) (fuel - m)).2.1,
          slotLogs k m ++ (masterMDinfoGo regs (k + m) (fuel - m)).2.2)) := by
  intro m
  induction m with
  | zero =>
    intro k fuel hsome hnz hfuel
    simp [slotMods, slotLogs]
  | succ m ih =>
    intro k fuel hsome hnz hfuel
    obtain ⟨fu, rfl⟩ : ∃ fu, fuel = fu + 1 := ⟨fuel - 1, by omega⟩
    have hk : mkMDinfo regs k =
        (Except.ok (mdOfRegs f k),
         [0xA001 + k * 16, 0xA004 + k * 16, 0xA005 + k * 16, 0xA006 + k * 16,
          0xA007 + k * 16]) :=
      mkMDinfo_defined regs f k (fun a ha => hsome 0 (by omega) a (by simpa using ha))
    have hst : syncReadWord regs (0xA000 + k * 16) = Except.ok (f (0xA000 + k * 16)) := by
      unfold syncReadWord
      rw [hsome 0 (by omega) (0xA000 + k * 16) (by simp [slotReadAddrs])]
    have IH := ih (k + 1) fu
      (fun i hi a ha => hsome (i + 1) (by omega) a
        (by have e : k + (i + 1) = k + 1 + i := by omega
            rw [e]; exact ha))
      (fun i hi => by
        have e : k + 1 + i = k + (i + 1) := by omega
        rw [e]; exact hnz (i + 1) (by omega))
      (by omega)
    simp only [masterMDinfoGo, hk, hst]
    rw [if_pos (by simpa using hnz 0 (by omega))]
    rw [IH]
    have e1 : k + 1 + m = k + (m + 1) := by omega
    have e2 : fu - m = fu + 1 - (m + 1) := by omega
    rw [e1, e2]
    simp [slotMods, slotLogs, List.append_assoc, slotReadAddrs]

/-- `slotMods` produces exactly one descriptor per slot. -/
theorem slotMods_length (f : Nat → Nat) : ∀ m k, (slotMods f k m).length = m := by
  intro m
  induction m with
  | zero => intro k; rfl
  | succ m ih => intro k; simp [slotMods, ih (k + 1)]

/-- `slotLogs` with one more slot appends that slot's reads at the
end. -/
theorem slotLogs_snoc : ∀ m k, slotLogs k (m + 1) = slotLogs k m ++ slotReadAddrs (k + m) := by
  intro m
  induction m with
  | zero => intro k; simp [slotLogs]
  | succ m ih =>
    intro k
    have e : k + 1 + m = k + (m + 1) := by omega
    calc slotLogs k (m + 1 + 1) = slotReadAddrs k ++ slotLogs (k + 1) (m + 1) := rfl
      _ = slotReadAddrs k ++ (slotLogs (k + 1) m ++ slotReadAddrs (k + 1 + m)) := by rw [ih (k + 1)]
      _ = (slotReadAddrs k ++ slotLogs (k + 1) m) ++ slotReadAddrs (k + (m + 1)) := by
            rw [e, List.append_assoc]
      _ = slotLogs k (m + 1) ++ slotReadAddrs (k + (m + 1)) := rfl

/-- Claim C2: with per-slot statuses `[nonzero, …, nonzero, 0, …]`
(first zero at slot `n`) and a fault-free transport, module discovery
returns exactly one Module Descriptor per slot before the first zero,
in increasing slot order (`slotMods f 0 n`, of length `n`), reads
exactly the registers of slots `0..n` (`slotLogs 0 (n+1)` — nothing
beyond the first zero-status slot), and for `n = 0` this is the empty
list, not an error. -/
theorem claim_C2 (f : Nat → Nat) (n fuel : Nat)
    (hzero : f (0xA000 + n * 16) = 0)
    (hnz : ∀ i, i < n → f (0xA000 + i * 16) ≠ 0)
    (hfuel : n + 1 ≤ fuel) :
    MasterMDinfo (fun a => some (f a)) fuel =
      (Except.ok (), (slotMods f 0 n, slotLogs 0 (n + 1))) ∧
    (slotMods f 0 n).length = n := by
  refine ⟨?_, slotMods_length f n 0⟩
  unfold MasterMDinfo
  rw [masterMDinfoGo_walk (fun a => some (f a)) f n 0 fuel (fun _ _ _ _ => rfl)
      (fun i hi => by simpa using hnz i hi) (by omega)]
  obtain ⟨fu, hfu⟩ : ∃ fu, fuel - n = fu + 1 := ⟨fuel - n - 1, by omega⟩
  rw [hfu, show (0 : Nat) + n = n from by omega]
  have hmk := mkMDinfo_defined (fun a => some (f a)) f n (fun _ _ => rfl)
  have hst : syncReadWord (fun a => some (f a)) (0xA000 + n * 16) =
      Except.ok (f (0xA000 + n * 16)) := rfl
  simp only [masterMDinfoGo, hmk, hst, hzero]
  rw [if_neg (by simp)]
  simp [slotLogs_snoc n 0, slotReadAddrs]

/-- A fault-free register map with slot statuses 5, 7, 0 and all other
registers reading 9, matching the spec scenario "3 modules with
statuses [5, 7, 0]". -/
def wfC2 : Nat → Nat := fun a =>
  if a = 0xA000 then 5 else if a = 0xA010 then 7 else if a = 0xA020 then 0 else 9

/-- Witness for claim C2 on the concrete map `wfC2` (first zero status
at slot 2, fuel 3), together with the fully evaluated discovery
result. -/
theorem claim_C2_witness :
    (MasterMDinfo (fun a => some (wfC2 a)) 3 =
        (Except.ok (), (slotMods wfC2 0 2, slotLogs 0 3)) ∧
      (slotMods wfC2 0 2).length = 2) ∧
    slotMods wfC2 0 2 = [⟨9, 9, 9, 9, 9⟩, ⟨9, 9, 9, 9, 9⟩] ∧
    slotLogs 0 3 =
      [0xA001, 0xA004, 0xA005, 0xA006, 0xA007, 0xA000,
       0xA011, 0xA014, 0xA015, 0xA016, 0xA017, 0xA010,
       0xA021, 0xA024, 0xA025, 0xA026, 0xA027, 0xA020] :=
  ⟨claim_C2 wfC2 2 3 (by decide) (by decide) (by decide), by decide, by decide⟩

/-- A register map where slot 0 is healthy (status 5, data 9) and every
read at or above 0xA010 — i.e. every register of slot 1 — faults. -/
def regsC5 : Nat → Option Nat := fun a =>
  if a < 0xA010 then some (if a = 0xA000 then 5 else 9) else none

/-- Claim C5, counterexample: with `regsC5` the slot-1 hardware-id read
faults after slot 0's module has already been appended; discovery
raises (the source's `except Exception` handler re-raises
`excUnhandled`) but the session's `MDinfo` list still holds the
partial one-module list — it is not discarded, so discovery is not
all-or-nothing. -/
theorem claim_C5_counterexample :
    (MasterMDinfo regsC5 5).1 = Except.error excUnhandled ∧
    (MasterMDinfo regsC5 5).2.1 = [⟨9, 9, 9, 9, 9⟩] ∧
    (MasterMDinfo regsC5 5).2.1.length = 1 := by
  refine ⟨rfl, rfl, rfl⟩

/-- Like `mkMDinfo_defined`, but assuming only the five constructor
reads succeed (the slot's status register may fault). -/
theorem mkMDinfo_defined5 (regs : Nat → Option Nat) (f : Nat → Nat) (k : Nat)
    (h : ∀ a, a ∈ (slotReadAddrs k).take 5 → regs a = some (f a)) :
    mkMDinfo regs k =
      (Except.ok (mdOfRegs f k),
       [0xA001 + k * 16, 0xA004 + k * 16, 0xA005 + k * 16, 0xA006 + k * 16,
        0xA007 + k * 16]) := by
  unfold mkMDinfo
  rw [h (0xA001 + k * 16) (by simp [slotReadAddrs]),
      h (0xA004 + k * 16) (by simp [slotReadAddrs]),
      h (0xA005 + k * 16) (by simp [slotReadAddrs]),
      h (0xA006 + k * 16) (by simp [slotReadAddrs]),
      h (0xA007 + k * 16) (by simp [slotReadAddrs])]
  rfl

/-- The `MasterBRMDinfo` constructor when its `j`-th read (of the five,
in source order) faults after the earlier ones succeed: it raises at
the faulting read, having attempted exactly the first `j + 1`
addresses. -/
theorem mkMDinfo_fault (regs : Nat → Option Nat) (f : Nat → Nat) (n j : Nat)
    (hj : j < 5)
    (hpre : ∀ a, a ∈ (slotReadAddrs n).take j → regs a = some (f a))
    (hfault : regs ((slotReadAddrs n).getD j 0) = none) :
    mkMDinfo regs n = (Except.error excDevice, (slotReadAddrs n).take (j + 1)) := by
  interval_cases j
  · have hf : regs (0xA001 + n * 16) = none := by simpa [slotReadAddrs] using hfault
    unfold mkMDinfo
    rw [hf]
    simp [slotReadAddrs]
  · have h1 := hpre (0xA001 + n * 16) (by simp [slotReadAddrs])
    have hf : regs (0xA004 + n * 16) = none := by simpa [slotReadAddrs] using hfault
    unfold mkMDinfo
    rw [h1, hf]
    simp [slotReadAddrs]
  · have h1 := hpre (0xA001 + n * 16) (by simp [slotReadAddrs])
    have h2 := hpre (0xA004 + n * 16) (by simp [slotReadAddrs])
    have hf : regs (0xA005 + n * 16) = none := by simpa [slotReadAddrs] using hfault
    unfold mkMDinfo
    rw [h1, h2, hf]
    simp [slotReadAddrs]
  · have h1 := hpre (0xA001 + n * 16) (by simp [slotReadAddrs])
    have h2 := hpre (0xA004 + n * 16) (by simp [slotReadAddrs])
    have h3 := hpre (0xA005 + n * 16) (by simp [slotReadAddrs])
    have hf : regs (0xA006 + n * 16) = none := by simpa [slotReadAddrs] using hfault
    unfold mkMDinfo
    rw [h1, h2, h3, hf]
    simp [slotReadAddrs]
  · have h1 := hpre (0xA001 + n * 16) (by simp [slotReadAddrs])
    have h2 := hpre (0xA004 + n * 16) (by simp [slotReadAddrs])
    have h3 := hpre (0xA005 + n * 16) (by simp [slotReadAddrs])
    have h4 := hpre (0xA006 + n * 16) (by simp [slotReadAddrs])
    have hf : regs (0xA007 + n * 16) = none := by simpa [slotReadAddrs] using hfault
    unfold mkMDinfo
    rw [h1, h2, h3, h4, hf]
    simp [slotReadAddrs]

/-- One loop iteration at slot `n` when the `j`-th of the slot's six
reads (hardware id, four indices, status — source order) faults after
the earlier ones succeed: the loop raises `excUnhandled` (the source's
`except Exception` rewrap), appends nothing at this slot, and has
attempted exactly the slot's first `j + 1` register reads. -/
theorem slotFault_go (regs : Nat → Option Nat) (f : Nat → Nat) (n fu j : Nat)
    (hj : j < 6)
    (hpre : ∀ a, a ∈ (slotReadAddrs n).take j → regs a = some (f a))
    (hfault : regs ((slotReadAddrs n).getD j 0) = none) :
    masterMDinfoGo regs n (fu + 1) =
      (Except.error excUnhandled, ([], (slotReadAddrs n).take (j + 1))) := by
  by_cases h5 : j < 5
  · simp only [masterMDinfoGo, mkMDinfo_fault regs f n j h5 hpre hfault]
  · have hj5 : j = 5 := by omega
    subst hj5
    have hst : syncReadWord regs (0xA000 + n * 16) = Except.error excDevice := by
      unfold syncReadWord
      rw [show regs (0xA000 + n * 16) = none from by simpa [slotReadAddrs] using hfault]
    simp only [masterMDinfoGo, mkMDinfo_defined5 regs f n hpre, hst]
    simp [slotReadAddrs]

/-- Claim C5, amended: if any of the six register reads of slot `n`
(hardware id, the four I/O indices, or the status read — in source
order, position `j`) faults after `n` fault-free nonzero-status slots
and after the earlier reads of slot `n` succeeded, discovery propagates
the fault (as `excUnhandled`, the source's `except Exception` rewrap of
the transport error) but the session retains the partial list of the
`n` modules accumulated before the fault — the appended descriptors are
not rolled back — and the read log covers slots `0..n-1` plus slot `n`
up to and including the faulting read. -/
theorem claim_C5_amended (regs : Nat → Option Nat) (f : Nat → Nat) (n fuel j : Nat)
    (hsome : ∀ i, i < n → ∀ a, a ∈ slotReadAddrs i → regs a = some (f a))
    (hnz : ∀ i, i < n → f (0xA000 + i * 16) ≠ 0)
    (hj : j < 6)
    (hpre : ∀ a, a ∈ (slotReadAddrs n).take j → regs a = some (f a))
    (hfault : regs ((slotReadAddrs n).getD j 0) = none)
    (hfuel : n + 1 ≤ fuel) :
    MasterMDinfo regs fuel =
      (Except.error excUnhandled,
       (slotMods f 0 n, slotLogs 0 n ++ (slotReadAddrs n).take (j + 1))) := by
  unfold MasterMDinfo
  rw [masterMDinfoGo_walk regs f n 0 fuel
      (fun i hi a ha => hsome i hi a (by simpa using ha))
      (fun i hi => by simpa using hnz i hi) (by omega)]
  obtain ⟨fu, hfu⟩ : ∃ fu, fuel - n = fu + 1 := ⟨fuel - n - 1, by omega⟩
  rw [hfu, show (0 : Nat) + n = n from by omega]
  rw [slotFault_go regs f n fu j hj hpre hfault]
  simp

/-- A register map where slot 0 is healthy, slot 1's five constructor
reads succeed, and slot 1's status read (0xA010) faults. -/
def regsC5b : Nat → Option Nat := fun a =>
  if a = 0xA010 then none
  else if a < 0xA020 then some (if a = 0xA000 then 5 else 9) else none

/-- Witness for the amended claim C5 at two concrete maps: `regsC5`
(fault at slot 1's first constructor read, j = 0) and `regsC5b` (fault
at slot 1's status read, j = 5). -/
theorem claim_C5_amended_witness :
    MasterMDinfo regsC5 5 =
      (Except.error excUnhandled,
       (slotMods (fun a => if a = 0xA000 then 5 else 9) 0 1,
        slotLogs 0 1 ++ (slotReadAddrs 1).take 1)) ∧
    MasterMDinfo regsC5b 5 =
      (Except.error excUnhandled,
       (slotMods (fun a => if a = 0xA000 then 5 else 9) 0 1,
        slotLogs 0 1 ++ (slotReadAddrs 1).take 6)) :=
  ⟨claim_C5_amended regsC5 (fun a => if a = 0xA000 then 5 else 9) 1 5 0
    (by decide) (by decide) (by decide) (by decide) (by decide) (by decide),
   claim_C5_amended regsC5b (fun a => if a = 0xA000 then 5 else 9) 1 5 5
    (by decide) (by decide) (by decide) (by decide) (by decide) (by decide)⟩

/-- `Nat.digitChar` on decimal digits is a digit character distinct
from the dot, and subtracting 48 from its code recovers the digit. -/
theorem digitChar_spec : ∀ d, d < 10 →
    (Nat.digitChar d).isDigit = true ∧ (Nat.digitChar d).toNat - 48 = d ∧
      Nat.digitChar d ≠ '.' := by decide

/-- `natToCharsAux` of zero is empty at any fuel. -/
theorem natToCharsAux_zero : ∀ fuel, natToCharsAux fuel 0 = [] := by
  intro fuel
  cases fuel <;> simp [natToCharsAux]

/-- With enough fuel, `natToCharsAux` of a positive `n` is a non-empty
dot-free digit string, and folding the decimal evaluation over it from
accumulator `a` yields `a * 10 ^ length + n`. -/
theorem natToCharsAux_spec : ∀ fuel n, 0 < n → n ≤ fuel →
    natToCharsAux fuel n ≠ [] ∧
    (natToCharsAux fuel n).all Char.isDigit = true ∧
    '.' ∉ natToCharsAux fuel n ∧
    ∀ a : Nat, (natToCharsAux fuel n).foldl (fun x c => x * 10 + (c.toNat - 48)) a =
      a * 10 ^ (natToCharsAux fuel n).length + n := by
  intro fuel
  induction fuel with
  | zero => intro n h1 h2; omega
  | succ f ih =>
    intro n h1 h2
    rw [natToCharsAux, if_neg (by omega)]
    by_cases h10 : n < 10
    · have hdiv : n / 10 = 0 := Nat.div_eq_of_lt h10
      have hmod : n % 10 = n := Nat.mod_eq_of_lt h10
      rw [hdiv, natToCharsAux_zero, hmod]
      obtain ⟨hd1, hd2, hd3⟩ := digitChar_spec n h10
      refine ⟨by simp, by simp [hd1], by simp [Ne.symm hd3], fun a => ?_⟩
      simp only [List.nil_append, List.foldl_cons, List.foldl_nil, List.length_cons,
        List.length_nil, hd2]
      omega
    · have hpos : 0 < n / 10 := Nat.div_pos (by omega) (by omega)
      have hlt : n / 10 < n := Nat.div_lt_self h1 (by omega)
      obtain ⟨hne, hall, hdot, hfold⟩ := ih (n / 10) hpos (by omega)
      obtain ⟨hd1, hd2, hd3⟩ := digitChar_spec (n % 10) (Nat.mod_lt n (by omega))
      refine ⟨by simp, ?_, ?_, fun a => ?_⟩
      · rw [List.all_append, hall]
        simp [hd1]
      · simp only [List.mem_append, List.mem_singleton]
        rintro (h | h)
        · exact hdot h
        · exact hd3 h.symm
      · rw [List.foldl_append, hfold a]
        simp only [List.foldl_cons, List.foldl_nil, List.length_append, List.length_cons,
          List.length_nil, hd2]
        rw [pow_succ, ← mul_assoc]
        generalize a * 10 ^ (natToCharsAux f (n / 10)).length = q
        omega

/-- Parsing the decimal rendering of `n` with Python `int` recovers
`n`. -/
theorem pyInt_natToChars (n : Nat) : pyInt (natToChars n) = some n := by
  by_cases h : n = 0
  · subst h; decide
  · obtain ⟨hne, hall, hdot, hfold⟩ := natToCharsAux_spec (n + 1) n (by omega) (by omega)
    unfold natToChars
    rw [if_neg h]
    unfold pyInt
    rw [if_neg (by simpa using hne), if_pos hall, hfold 0]
    simp

/-- The decimal rendering of `n` contains no dot. -/
theorem natToChars_no_dot (n : Nat) : '.' ∉ natToChars n := by
  by_cases h : n = 0
  · subst h; decide
  · unfold natToChars
    rw [if_neg h]
    exact (natToCharsAux_spec (n + 1) n (by omega) (by omega)).2.2.1

/-- `split('.')` never yields an empty field list. -/
theorem splitDot_ne_nil : ∀ cs : List Char, splitDot cs ≠ [] := by
  intro cs
  induction cs with
  | nil => simp [splitDot]
  | cons c cs ih =>
    rw [splitDot]
    by_cases h : c = '.'
    · rw [if_pos h]; simp
    · rw [if_neg h]
      cases hl : splitDot cs with
      | nil => simp
      | cons t ts => simp

/-- `split('.')` of a dot-free string is that one field. -/
theorem splitDot_no_dot : ∀ cs : List Char, '.' ∉ cs → splitDot cs = [cs] := by
  intro cs
  induction cs with
  | nil => intro h; rfl
  | cons c cs ih =>
    intro h
    have hc : ¬ c = '.' := fun e => h (by simp [e])
    rw [splitDot, if_neg hc, ih (fun hm => h (by simp [hm]))]

/-- `split('.')` after a dot-free field followed by a dot peels off that
field. -/
theorem splitDot_append : ∀ xs ys : List Char, '.' ∉ xs →
    splitDot (xs ++ '.' :: ys) = xs :: splitDot ys := by
  intro xs
  induction xs with
  | nil => intro ys h; rw [List.nil_append, splitDot, if_pos rfl]
  | cons x xs ih =>
    intro ys h
    have hx : ¬ x = '.' := fun e => h (by simp [e])
    rw [List.cons_append, splitDot, if_neg hx, ih ys (fun hm => h (by simp [hm]))]

/-- `_string_to_address` on a canonical dotted quad parses the four
octets. -/
theorem string_to_address_ipChars (a b c d : Nat) :
    string_to_address (ipChars a b c d) = some [a, b, c, d] := by
  unfold string_to_address ipChars
  rw [splitDot_append _ _ (natToChars_no_dot a),
      splitDot_append _ _ (natToChars_no_dot b),
      splitDot_append _ _ (natToChars_no_dot c),
      splitDot_no_dot _ (natToChars_no_dot d)]
  simp [intList, pyInt_natToChars]

/-- Reading back the four registers written by
`_SyncWriteRegisters(0x1003, [a, b, c, d])`. -/
theorem writeRegs_c9 (regs : Nat → Nat) (a b c d : Nat) :
    writeRegs regs 0x1003 [a, b, c, d] 0x1003 = a ∧
    writeRegs regs 0x1003 [a, b, c, d] 0x1004 = b ∧
    writeRegs regs 0x1003 [a, b, c, d] 0x1005 = c ∧
    writeRegs regs 0x1003 [a, b, c, d] 0x1006 = d := by
  refine ⟨?_, ?_, ?_, ?_⟩ <;> simp [writeRegs]

/-- Claim C9: for every IP string "a.b.c.d" with octets in 0..255,
writing it through the `com_ip_flash` setter (which parses the four
octets and writes them to registers 0x1003..0x1006) and decoding the
same four registers through the `com_ip_flash` getter (word-to-byte
conversion taking the low byte of each word) reproduces exactly the
string "a.b.c.d". -/
theorem claim_C9 (regs : Nat → Nat) (a b c d : Nat)
    (ha : a ≤ 255) (hb : b ≤ 255) (hc : c ≤ 255) (hd : d ≤ 255) :
    com_ip_flash_get (com_ip_flash_set regs (ipChars a b c d)) = ipChars a b c d := by
  have hset : com_ip_flash_set regs (ipChars a b c d) = writeRegs regs 0x1003 [a, b, c, d] := by
    unfold com_ip_flash_set
    rw [string_to_address_ipChars]
    rfl
  rw [hset]
  obtain ⟨h3, h4, h5, h6⟩ := writeRegs_c9 regs a b c d
  unfold com_ip_flash_get
  rw [h3, h4, h5, h6]
  simp only [WordArray2WordByte, wordToBytes, List.cons_append, List.nil_append]
  rw [if_neg (by simp)]
  have ma : a % 256 = a := Nat.mod_eq_of_lt (by omega)
  have mb : b % 256 = b := Nat.mod_eq_of_lt (by omega)
  have mc2 : c % 256 = c := Nat.mod_eq_of_lt (by omega)
  have md2 : d % 256 = d := Nat.mod_eq_of_lt (by omega)
  simp only [List.getD, List.get?, ma, mb, mc2, md2, Option.getD_some]
  simp [ipChars]

/-- Witness for claim C9 at the concrete address 192.168.0.1 on an
all-zero register file. -/
theorem claim_C9_witness :
    com_ip_flash_get (com_ip_flash_set (fun _ => 0) (ipChars 192 168 0 1)) =
      ipChars 192 168 0 1 :=
  claim_C9 (fun _ => 0) 192 168 0 1 (by decide) (by decide) (by decide) (by decide)

end ModbusBR
